import Mathlib

/-!
Shallow embedding of the linebot-project dialogue state machine
(src/app.py, src/chatgpt_processor.py) and proofs about it.

Python dicts of strings are modelled as association lists with
first-occurrence lookup and Python assignment semantics (update the
existing entry in place, else append).  The external collaborators
(Google-Sheets helpers in src/google_sheets.py) are modelled by an
environment record plus an explicit trace of side-effecting calls.
-/

namespace Linebot

/-- Association-list lookup: first entry with the given key (Python dict `get`). -/
def dictGet : List (String × String) → String → Option String
  | [], _ => none
  | (a, b) :: rest, k => if a = k then some b else dictGet rest k

/-- Python `d.get(k, default)`. -/
def dictGetD (d : List (String × String)) (k dflt : String) : String :=
  (dictGet d k).getD dflt

/-- Python `k in d`. -/
def dictMem (d : List (String × String)) (k : String) : Bool :=
  (dictGet d k).isSome

/-- Python `d[k] = v`: overwrite the existing entry in place, else append. -/
def dictSet : List (String × String) → String → String → List (String × String)
  | [], k, v => [(k, v)]
  | (a, b) :: rest, k, v => if a = k then (k, v) :: rest else (a, b) :: dictSet rest k v

/-- The key set (in insertion order) of a modelled dict. -/
def dictKeys (d : List (String × String)) : List String :=
  d.map Prod.fst

/-- Python `s.strip()`: drop leading and trailing whitespace.  (Python
strips a slightly larger Unicode whitespace class; the difference plays no
role for the keyword sets and inputs treated here.) -/
def pyStrip (s : String) : String :=
  String.mk (((s.data.dropWhile Char.isWhitespace).reverse.dropWhile Char.isWhitespace).reverse)

/-- Python `s.lower()`.  (ASCII case mapping; all keywords this program
lowercases against are ASCII or case-less Japanese.) -/
def pyLower (s : String) : String :=
  String.mk (s.data.map Char.toLower)

/-- Python `text.split(" ", 1)` for a text containing a space: the part
before the first space and the part after it.  `none` means the text has
no space (`" " in text` is false). -/
def splitFirstSpace : List Char → Option (List Char × List Char)
  | [] => none
  | c :: rest =>
      if c = ' ' then some ([], rest)
      else
        match splitFirstSpace rest with
        | none => none
        | some (a, b) => some (c :: a, b)

/-- `mode` field of a session: `None | "register" | "consult"` in app.py. -/
inductive Mode
  | none
  | register
  | consult
deriving DecidableEq, Repr

/-- `phase` field of a session:
`None | "confirm_register" | "confirm_consult" | "edit_consult"` in app.py. -/
inductive Phase
  | none
  | confirmRegister
  | confirmConsult
  | editConsult
deriving DecidableEq, Repr

/-- One per-user session dict of app.py (`user_sessions[user_id]`). -/
structure Session where
  mode : Mode
  step : Nat
  answers : List (String × String)
  phase : Phase
  retry : Nat
deriving DecidableEq, Repr

/-- The default session created when `user_sessions.get(user_id)` is falsy. -/
def defaultSession : Session :=
  { mode := Mode.none, step := 0, answers := [], phase := Phase.none, retry := 0 }

/-- A member row of google_sheets.get_member_info. -/
structure MemberInfo where
  user_id : String
  office : String
  address : String
  role : String
  name : String
deriving DecidableEq, Repr

/-- Environment supplying the outcomes of the external Google-Sheets
collaborators for the one message being handled. -/
structure Env where
  /-- result of `is_user_registered(SPREADSHEET_ID, user_id)` -/
  isRegistered : Bool
  /-- result of `get_member_info(SPREADSHEET_ID, user_id)` -/
  memberInfo : Option MemberInfo
  /-- whether `register_user(...)` returns normally (`false` = it raises) -/
  registerOk : Bool
  /-- result of `write_structured_data(...)`: `some sheetName` on success,
  `none` when it raises -/
  persistResult : Option String
deriving DecidableEq, Repr

/-- A structured record: section name mapped to label/value rows. -/
abbrev StructuredRecord := List (String × List (String × String))

/-- Side-effecting collaborator calls made while handling one message. -/
inductive Call
  | registerUser (office address role name : String)
  | writeStructuredData (data : StructuredRecord)
deriving DecidableEq, Repr

/-- Result of handling one inbound message: the session stored afterwards
(`none` means the session was deleted or never kept), the replies sent, and
the side-effecting collaborator calls made. -/
structure StepResult where
  session : Option Session
  msgs : List String
  calls : List Call
deriving DecidableEq, Repr

/-- `MAX_CONFIRM_RETRIES` in app.py. -/
def MAX_CONFIRM_RETRIES : Nat := 3

def cancelKeywords : List String := ["キャンセル", "中止", "やめる"]

def registerStartKeywords : List String := ["登録する", "登録したい"]

def consultStartKeywords : List String := ["依頼する", "依頼したい", "相談したい"]

def affirmativeKeywords : List String := ["はい", "ok", "yes", "はい。", "うん"]

def negativeKeywords : List String := ["いいえ", "no", "いや", "変更", "修正"]

/-- The fixed human-escalation string used by every failure branch. -/
def escalationMsg : String := "大変申し訳御座いませんが、070-1689-2637まで、お電話ください。"

/-- `_LABEL_MAP` of app.py: the 27 consultation fields with display labels. -/
def LABEL_MAP : List (String × String) :=
  [("furigana", "ふりがな"),
   ("patient_name", "氏名"),
   ("gender", "性別"),
   ("dob", "生年月日"),
   ("age", "年齢"),
   ("address", "住所（施設名含む）"),
   ("postal_code", "郵便番号"),
   ("home_phone", "電話（自宅）"),
   ("mobile_phone", "電話（携帯）"),
   ("emergency_contact", "緊急連絡先電話番号"),
   ("parking", "駐車場"),
   ("residence_type", "居住形態"),
   ("care_level", "要介護度"),
   ("medical_history", "既往歴"),
   ("current_condition", "現病歴"),
   ("infection_status", "感染症"),
   ("internal_medicine_hospital", "内科主治医_病院名"),
   ("internal_medicine_doctor", "内科主治医_医師名"),
   ("communication_ability", "意思疎通"),
   ("swallowing_function", "嚥下機能"),
   ("medication_status", "服薬状況"),
   ("onset_date", "発症日・発症年"),
   ("preferred_visit_time", "希望訪問曜日・時間帯"),
   ("accompanying_person", "同席者"),
   ("key_person_name", "キーパーソン_氏名"),
   ("key_person_relationship", "キーパーソン_続柄"),
   ("key_person_address", "キーパーソン_住所")]

/-- `inv_map = {v: k for k, v in _LABEL_MAP.items()}` in the edit handler.
The 27 labels are pairwise distinct, so first-match lookup on the reversed
pairs agrees with the Python dict comprehension. -/
def invLabelMap : List (String × String) :=
  LABEL_MAP.map (fun p => (p.2, p.1))

/-- One question entry after normalisation: field identifier and prompt. -/
structure Question where
  field : String
  question : String
deriving DecidableEq, Repr

/-- Fallback question for list indexing; never reached on in-bounds steps. -/
def defaultQ : Question := { field := "", question := "" }

/-- Modelled from the spec: `questions.json` is not part of the sources, so
the consultation catalog is reconstructed from the spec, which fixes it to
the 27 consultation fields in catalog order — the same fields, in the same
order, as the `_LABEL_MAP` table in src/app.py.  Prompt texts are not fixed
by the spec and are modelled as opaque per-field strings; no claim depends
on their content. -/
def CONSULT_QUESTIONS : List Question :=
  LABEL_MAP.map (fun p => { field := p.1, question := "質問（" ++ p.2 ++ "）を教えてください。" })

/-- Modelled from the spec: `register_questions.json` is not part of the
sources.  The spec fixes five registration questions (the five-answer
scenario in its testable properties) covering the four identity fields
office/address/role/name used by the preview and the register write; the
fifth field identifier is not determined by the spec and is modelled as
"phone".  No claim depends on the prompts or on the fifth field. -/
def REGISTER_QUESTIONS : List Question :=
  [{ field := "name", question := "氏名を教えてください。" },
   { field := "office", question := "事業所名を教えてください。" },
   { field := "address", question := "住所を教えてください。" },
   { field := "role", question := "役職を教えてください。" },
   { field := "phone", question := "電話番号を教えてください。" }]

/-- `_format_register_preview` of app.py. -/
def format_register_preview (answers : List (String × String)) : String :=
  let office := dictGetD answers "office" ""
  let address := dictGetD answers "address" ""
  let role := dictGetD answers "role" ""
  let name := dictGetD answers "name" ""
  "📋【登録者情報の確認】\n" ++
  "・氏名：" ++ name ++ "\n" ++
  "・事業所名：" ++ office ++ "\n" ++
  "・住所：" ++ address ++ "\n" ++
  "・役職：" ++ role ++ "\n\n" ++
  "この内容で登録します。よろしいですか？（はい / いいえ）"

/-- The line-accumulating loop body of `_format_consult_preview`:
append one labelled line when the answer is truthy (non-empty). -/
def consultPreviewLines (answers : List (String × String)) : List String :=
  CONSULT_QUESTIONS.foldl
    (fun acc q =>
      let val := dictGetD answers q.field ""
      if val = "" then acc
      else acc ++ ["・" ++ dictGetD LABEL_MAP q.field q.field ++ "：" ++ val])
    ["🧑‍⚕️【患者さま情報の確認】"]

/-- `_format_consult_preview` of app.py. -/
def format_consult_preview (answers : List (String × String)) : String :=
  String.intercalate "\n"
    (consultPreviewLines answers ++ ["\nこの内容でよろしいですか？（はい / いいえ）"])

/-- `format_member_info` of google_sheets.py, composed with the
`get_member_info(...) or {}` at its call site: a missing member record
is falsy and yields the not-found string. -/
def format_member_info : Option MemberInfo → String
  | Option.none => "登録情報は見つかりませんでした。"
  | some mi =>
      String.intercalate "\n"
        ["📋【登録者情報】",
         "氏名：" ++ mi.name,
         "事業所名：" ++ mi.office,
         "住所：" ++ mi.address,
         "役職：" ++ mi.role,
         "ユーザーID：" ++ mi.user_id]

/-- `ConversationManager.build_structured_json` of src/chatgpt_processor.py:
three fixed sections, each label fetched from `answers` with empty-string
fallback. -/
def build_structured_json (answers : List (String × String)) : StructuredRecord :=
  let patient_info : List (String × String) :=
    [("ふりがな", dictGetD answers "furigana" ""),
     ("氏名", dictGetD answers "patient_name" ""),
     ("性別", dictGetD answers "gender" ""),
     ("生年月日", dictGetD answers "dob" ""),
     ("年齢", dictGetD answers "age" ""),
     ("住所（施設名含む）", dictGetD answers "address" ""),
     ("郵便番号", dictGetD answers "postal_code" ""),
     ("電話（自宅）", dictGetD answers "home_phone" ""),
     ("電話（携帯）", dictGetD answers "mobile_phone" ""),
     ("緊急連絡先電話番号", dictGetD answers "emergency_contact" ""),
     ("駐車場", dictGetD answers "parking" ""),
     ("居住形態", dictGetD answers "residence_type" ""),
     ("要介護度", dictGetD answers "care_level" "")]
  let medical_info : List (String × String) :=
    [("既往歴", dictGetD answers "medical_history" ""),
     ("現病歴", dictGetD answers "current_condition" ""),
     ("感染症", dictGetD answers "infection_status" ""),
     ("内科主治医_病院名", dictGetD answers "internal_medicine_hospital" ""),
     ("内科主治医_医師名", dictGetD answers "internal_medicine_doctor" ""),
     ("意思疎通", dictGetD answers "communication_ability" ""),
     ("嚥下機能", dictGetD answers "swallowing_function" ""),
     ("服薬状況", dictGetD answers "medication_status" ""),
     ("発症日・発症年", dictGetD answers "onset_date" "")]
  let coordination_info : List (String × String) :=
    [("希望訪問曜日・時間帯", dictGetD answers "preferred_visit_time" ""),
     ("同席者", dictGetD answers "accompanying_person" ""),
     ("キーパーソン_氏名", dictGetD answers "key_person_name" ""),
     ("キーパーソン_続柄", dictGetD answers "key_person_relationship" ""),
     ("キーパーソン_住所", dictGetD answers "key_person_address" "")]
  [("患者情報", patient_info),
   ("医療情報", medical_info),
   ("連絡・調整", coordination_info)]

/-- The consultation-start branch of handle_message (app.py lines 193-204),
taken when the trimmed text is a consultation-start keyword. -/
def consultStartStep (env : Env) : StepResult :=
  if env.isRegistered = false then
    { session := some { mode := Mode.register, step := 0, answers := [],
                        phase := Phase.none, retry := 0 },
      msgs := ["まず、依頼者情報の登録をお願いします。",
               (REGISTER_QUESTIONS.getD 0 defaultQ).question],
      calls := [] }
  else
    { session := some { mode := Mode.register, step := 0, answers := [],
                        phase := Phase.confirmRegister, retry := 0 },
      msgs := [format_member_info env.memberInfo ++
               "\n\nこの登録情報でよろしいですか？（はい / いいえ）"],
      calls := [] }

/-- The registration input phase (app.py lines 206-221): store the answer
under the current question's field, then either advance or move to the
confirm phase.  Indexing uses `getD`; the step-bound invariant proved below
shows the default is never consulted on reachable sessions. -/
def registerInputStep (ses : Session) (text : String) : StepResult :=
  let q := REGISTER_QUESTIONS.getD ses.step defaultQ
  let answers2 := dictSet ses.answers q.field text
  if ses.step + 1 < REGISTER_QUESTIONS.length then
    { session := some { ses with answers := answers2, step := ses.step + 1 },
      msgs := [(REGISTER_QUESTIONS.getD (ses.step + 1) defaultQ).question],
      calls := [] }
  else
    let ses2 := { ses with answers := answers2, phase := Phase.confirmRegister, retry := 0 }
    { session := some ses2,
      msgs := [format_register_preview answers2],
      calls := [] }

/-- The registration confirm phase (app.py lines 224-269). -/
def confirmRegisterStep (env : Env) (ses : Session) (text : String) : StepResult :=
  let lower := pyLower text
  if affirmativeKeywords.contains lower then
    if ses.mode = Mode.register ∧ ses.answers ≠ [] then
      let call := Call.registerUser (dictGetD ses.answers "office" "")
        (dictGetD ses.answers "address" "") (dictGetD ses.answers "role" "")
        (dictGetD ses.answers "name" "")
      if env.registerOk then
        { session := some { mode := Mode.consult, step := 0, answers := [],
                            phase := Phase.none, retry := 0 },
          msgs := ["✅ 登録が完了しました。次に患者さま情報を伺います。",
                   (CONSULT_QUESTIONS.getD 0 defaultQ).question],
          calls := [call] }
      else
        { session := none, msgs := [escalationMsg], calls := [call] }
    else
      { session := some { mode := Mode.consult, step := 0, answers := [],
                          phase := Phase.none, retry := 0 },
        msgs := [(CONSULT_QUESTIONS.getD 0 defaultQ).question],
        calls := [] }
  else if negativeKeywords.contains lower then
    let retry2 := ses.retry + 1
    if retry2 ≥ MAX_CONFIRM_RETRIES then
      { session := none, msgs := [escalationMsg], calls := [] }
    else
      let ses2 := { ses with mode := Mode.register, step := 0, phase := Phase.none, retry := retry2 }
      { session := some ses2,
        msgs := ["登録情報を修正します。はじめから伺います。",
                 (REGISTER_QUESTIONS.getD 0 defaultQ).question],
        calls := [] }
  else
    let retry2 := ses.retry + 1
    if retry2 ≥ MAX_CONFIRM_RETRIES then
      { session := none, msgs := [escalationMsg], calls := [] }
    else
      { session := some { ses with retry := retry2 },
        msgs := ["『はい』または『いいえ』でお答えください。"],
        calls := [] }

/-- The consultation input phase (app.py lines 271-286). -/
def consultInputStep (ses : Session) (text : String) : StepResult :=
  let q := CONSULT_QUESTIONS.getD ses.step defaultQ
  let answers2 := dictSet ses.answers q.field text
  if ses.step + 1 < CONSULT_QUESTIONS.length then
    { session := some { ses with answers := answers2, step := ses.step + 1 },
      msgs := [(CONSULT_QUESTIONS.getD (ses.step + 1) defaultQ).question],
      calls := [] }
  else
    let ses2 := { ses with answers := answers2, phase := Phase.confirmConsult, retry := 0 }
    { session := some ses2,
      msgs := [format_consult_preview answers2],
      calls := [] }

/-- The consultation confirm phase (app.py lines 289-321). -/
def confirmConsultStep (env : Env) (ses : Session) (text : String) : StepResult :=
  let lower := pyLower text
  if affirmativeKeywords.contains lower then
    let data := build_structured_json ses.answers
    match env.persistResult with
    | some sheetName =>
        { session := none,
          msgs := ["✅ ありがとうございました。内容を記録しました。\n→ シート名：" ++ sheetName],
          calls := [Call.writeStructuredData data] }
    | Option.none =>
        { session := none, msgs := [escalationMsg],
          calls := [Call.writeStructuredData data] }
  else if negativeKeywords.contains lower then
    let retry2 := ses.retry + 1
    if retry2 ≥ MAX_CONFIRM_RETRIES then
      { session := none, msgs := [escalationMsg], calls := [] }
    else
      { session := some { ses with phase := Phase.editConsult, retry := retry2 },
        msgs := ["修正したい項目と内容を『項目名 半角スペース 値』の形式で送ってください。\n例）氏名 佐藤花子"],
        calls := [] }
  else
    let retry2 := ses.retry + 1
    if retry2 ≥ MAX_CONFIRM_RETRIES then
      { session := none, msgs := [escalationMsg], calls := [] }
    else
      { session := some { ses with retry := retry2 },
        msgs := ["『はい』または『いいえ』でお答えください。"],
        calls := [] }

/-- The consultation edit phase (app.py lines 324-342).  Python tests
`" " in text` and then splits with `text.split(" ", 1)` into the part
before the first space and the remainder, stripping the remainder. -/
def editConsultStep (ses : Session) (text : String) : StepResult :=
  match splitFirstSpace text.data with
  | some (k, v) =>
      let key := String.mk k
      let value := pyStrip (String.mk v)
      let mappedKey := (dictGet invLabelMap key).getD key
      if dictMem ses.answers mappedKey then
        let answers2 := dictSet ses.answers mappedKey value
        let ses2 := { ses with answers := answers2, phase := Phase.confirmConsult, retry := 0 }
        { session := some ses2,
          msgs := ["『" ++ key ++ "』を『" ++ value ++ "』に修正しました。",
                   format_consult_preview answers2],
          calls := [] }
      else
        { session := some ses,
          msgs := ["『" ++ key ++ "』という項目が見つかりませんでした。もう一度お試しください。"],
          calls := [] }
  | none =>
      { session := some ses,
        msgs := ["『項目名 半角スペース 値』の形式で入力してください。"],
        calls := [] }

/-- The fallback menu text of app.py. -/
def menuMsg : String :=
  "次のいずれかを送ってください：\n" ++
  "・『依頼する』… 登録情報を確認→患者情報とご相談内容をお伺いします\n" ++
  "・『登録する』… 依頼者情報を登録/修正します\n" ++
  "・『キャンセル』… 途中で中止します"

/-- `handle_message` of app.py as a pure transition function: the stored
session (`none` when the user has no session), the raw message text, and
the collaborator environment go in; the stored-back session, the replies
and the collaborator call trace come out.  The priority order of the
branches mirrors the early-return `if` chain of the source. -/
def handle_message (env : Env) (stored : Option Session) (rawText : String) : StepResult :=
  let text := pyStrip rawText
  let ses := stored.getD defaultSession
  if cancelKeywords.contains text then
    { session := none, msgs := ["中止しました。"], calls := [] }
  else if registerStartKeywords.contains text then
    { session := some { mode := Mode.register, step := 0, answers := [],
                        phase := Phase.none, retry := 0 },
      msgs := [(REGISTER_QUESTIONS.getD 0 defaultQ).question],
      calls := [] }
  else if consultStartKeywords.contains text then
    consultStartStep env
  else if ses.mode = Mode.register ∧ ses.phase = Phase.none then
    registerInputStep ses text
  else if ses.phase = Phase.confirmRegister then
    confirmRegisterStep env ses text
  else if ses.mode = Mode.consult ∧ ses.phase = Phase.none then
    consultInputStep ses text
  else if ses.phase = Phase.confirmConsult then
    confirmConsultStep env ses text
  else if ses.phase = Phase.editConsult then
    editConsultStep ses text
  else
    { session := some ses, msgs := [menuMsg], calls := [] }

/-- `_load_questions` of app.py works on parsed JSON entries; an entry is a
JSON object that may carry the keys "field", "key" and "question". -/
structure RawEntry where
  field? : Option String
  key? : Option String
  question? : Option String
deriving DecidableEq, Repr

/-- Failures of question loading: the file is missing or not valid JSON
(open/json.load raises), or an entry has no "question" key (`q["question"]`
raises KeyError). -/
inductive LoadError
  | badSource
  | missingQuestion
deriving DecidableEq, Repr

/-- Python truthiness of `q.get(k)`: `None` and the empty string are falsy. -/
def pyTruthy : Option String → Bool
  | Option.none => false
  | some s => s ≠ ""

/-- Python `a or b` on two `get` results. -/
def pyOr (a b : Option String) : Option String :=
  if pyTruthy a then a else b

/-- A normalised entry produced by `_load_questions`: note the field
identifier can be absent (`None` in Python) when neither legacy key is
truthy. -/
structure NQuestion where
  field : Option String
  question : String
deriving DecidableEq, Repr

/-- The loop body of `_load_questions` over the parsed entries. -/
def normalizeEntries : List RawEntry → Except LoadError (List NQuestion)
  | [] => Except.ok []
  | q :: rest =>
      match q.question? with
      | Option.none => Except.error LoadError.missingQuestion
      | some qt =>
          match normalizeEntries rest with
          | Except.error e => Except.error e
          | Except.ok tail =>
              Except.ok ({ field := pyOr q.field? q.key?, question := qt } :: tail)

/-- `_load_questions` of app.py: `none` input models a missing or malformed
source file (open/json.load raises). -/
def load_questions : Option (List RawEntry) → Except LoadError (List NQuestion)
  | Option.none => Except.error LoadError.badSource
  | some entries => normalizeEntries entries

/-! ### Helper lemmas about the dict model -/

theorem dictGet_dictSet_self (d : List (String × String)) (k v : String) :
    dictGet (dictSet d k v) k = some v := by
  induction d with
  | nil => simp [dictSet, dictGet]
  | cons p rest ih =>
      by_cases h : p.1 = k
      · simp [dictSet, dictGet, h]
      · simp [dictSet, dictGet, h, ih]

theorem dictKeys_dictSet_of_mem (d : List (String × String)) (k v : String)
    (h : dictMem d k = true) : dictKeys (dictSet d k v) = dictKeys d := by
  induction d with
  | nil => simp [dictMem, dictGet] at h
  | cons p rest ih =>
      by_cases hk : p.1 = k
      · simp [dictSet, dictKeys, hk]
      · have h2 : dictMem rest k = true := by
          simpa [dictMem, dictGet, hk] using h
        simp [dictSet, dictKeys, hk] at ih ⊢
        exact ih h2

/-- The accumulating preview loop is the filterMap of its per-question line. -/
theorem foldl_preview_eq (answers : List (String × String)) :
    ∀ (l : List Question) (init : List String),
      l.foldl
        (fun acc q =>
          let val := dictGetD answers q.field ""
          if val = "" then acc
          else acc ++ ["・" ++ dictGetD LABEL_MAP q.field q.field ++ "：" ++ val])
        init
      = init ++ l.filterMap (fun q =>
          let val := dictGetD answers q.field ""
          if val = "" then none
          else some ("・" ++ dictGetD LABEL_MAP q.field q.field ++ "：" ++ val)) := by
  intro l
  induction l with
  | nil => intro init; simp
  | cons q rest ih =>
      intro init
      by_cases h : dictGetD answers q.field "" = ""
      · simp [List.foldl_cons, List.filterMap_cons, h, ih]
      · simp [List.foldl_cons, List.filterMap_cons, h, ih]

/-! ### Branch-dispatch lemmas for handle_message -/

theorem hm_confirmRegister_eq (env : Env) (ses : Session) (text : String)
    (h1 : pyStrip text ∉ cancelKeywords)
    (h2 : pyStrip text ∉ registerStartKeywords)
    (h3 : pyStrip text ∉ consultStartKeywords)
    (hphase : ses.phase = Phase.confirmRegister) :
    handle_message env (some ses) text = confirmRegisterStep env ses (pyStrip text) := by
  simp [handle_message, h1, h2, h3, hphase]

theorem hm_confirmConsult_eq (env : Env) (ses : Session) (text : String)
    (h1 : pyStrip text ∉ cancelKeywords)
    (h2 : pyStrip text ∉ registerStartKeywords)
    (h3 : pyStrip text ∉ consultStartKeywords)
    (hphase : ses.phase = Phase.confirmConsult) :
    handle_message env (some ses) text = confirmConsultStep env ses (pyStrip text) := by
  simp [handle_message, h1, h2, h3, hphase]

theorem hm_editConsult_eq (env : Env) (ses : Session) (text : String)
    (h1 : pyStrip text ∉ cancelKeywords)
    (h2 : pyStrip text ∉ registerStartKeywords)
    (h3 : pyStrip text ∉ consultStartKeywords)
    (hphase : ses.phase = Phase.editConsult) :
    handle_message env (some ses) text = editConsultStep ses (pyStrip text) := by
  simp [handle_message, h1, h2, h3, hphase]

/-- Keyword sets: a negative answer is never an affirmative one. -/
theorem neg_not_affirm (s : String) (h : s ∈ negativeKeywords) :
    s ∉ affirmativeKeywords := by
  simp [negativeKeywords] at h
  rcases h with h | h | h | h | h <;> subst h <;> decide

/-- Both confirm steps handle an unrecognized answer the same way:
bump the retry counter and either escalate-and-delete or re-prompt. -/
theorem confirmRegisterStep_unrec (env : Env) (ses : Session) (t : String)
    (haff : pyLower t ∉ affirmativeKeywords)
    (hneg : pyLower t ∉ negativeKeywords) :
    confirmRegisterStep env ses t =
      if ses.retry + 1 ≥ MAX_CONFIRM_RETRIES then
        { session := none, msgs := [escalationMsg], calls := [] }
      else
        { session := some { ses with retry := ses.retry + 1 },
          msgs := ["『はい』または『いいえ』でお答えください。"], calls := [] } := by
  simp [confirmRegisterStep, haff, hneg]

theorem confirmConsultStep_unrec (env : Env) (ses : Session) (t : String)
    (haff : pyLower t ∉ affirmativeKeywords)
    (hneg : pyLower t ∉ negativeKeywords) :
    confirmConsultStep env ses t =
      if ses.retry + 1 ≥ MAX_CONFIRM_RETRIES then
        { session := none, msgs := [escalationMsg], calls := [] }
      else
        { session := some { ses with retry := ses.retry + 1 },
          msgs := ["『はい』または『いいえ』でお答えください。"], calls := [] } := by
  simp [confirmConsultStep, haff, hneg]

theorem confirmRegisterStep_neg (env : Env) (ses : Session) (t : String)
    (hneg : pyLower t ∈ negativeKeywords) :
    confirmRegisterStep env ses t =
      if ses.retry + 1 ≥ MAX_CONFIRM_RETRIES then
        { session := none, msgs := [escalationMsg], calls := [] }
      else
        { session := some { ses with mode := Mode.register, step := 0, phase := Phase.none, retry := ses.retry + 1 },
          msgs := ["登録情報を修正します。はじめから伺います。",
                   (REGISTER_QUESTIONS.getD 0 defaultQ).question], calls := [] } := by
  have haff := neg_not_affirm (pyLower t) hneg
  simp [confirmRegisterStep, haff, hneg]

theorem confirmConsultStep_neg (env : Env) (ses : Session) (t : String)
    (hneg : pyLower t ∈ negativeKeywords) :
    confirmConsultStep env ses t =
      if ses.retry + 1 ≥ MAX_CONFIRM_RETRIES then
        { session := none, msgs := [escalationMsg], calls := [] }
      else
        { session := some { ses with phase := Phase.editConsult, retry := ses.retry + 1 },
          msgs := ["修正したい項目と内容を『項目名 半角スペース 値』の形式で送ってください。\n例）氏名 佐藤花子"],
          calls := [] } := by
  have haff := neg_not_affirm (pyLower t) hneg
  simp [confirmConsultStep, haff, hneg]

/-- Unified form of an unrecognized answer in either confirm phase. -/
theorem hm_confirm_unrec (env : Env) (ses : Session) (text : String)
    (h1 : pyStrip text ∉ cancelKeywords)
    (h2 : pyStrip text ∉ registerStartKeywords)
    (h3 : pyStrip text ∉ consultStartKeywords)
    (hphase : ses.phase = Phase.confirmRegister ∨ ses.phase = Phase.confirmConsult)
    (haff : pyLower (pyStrip text) ∉ affirmativeKeywords)
    (hneg : pyLower (pyStrip text) ∉ negativeKeywords) :
    handle_message env (some ses) text =
      if ses.retry + 1 ≥ MAX_CONFIRM_RETRIES then
        { session := none, msgs := [escalationMsg], calls := [] }
      else
        { session := some { ses with retry := ses.retry + 1 },
          msgs := ["『はい』または『いいえ』でお答えください。"], calls := [] } := by
  rcases hphase with hp | hp
  · rw [hm_confirmRegister_eq env ses text h1 h2 h3 hp,
        confirmRegisterStep_unrec env ses (pyStrip text) haff hneg]
  · rw [hm_confirmConsult_eq env ses text h1 h2 h3 hp,
        confirmConsultStep_unrec env ses (pyStrip text) haff hneg]

/-! ### Concrete objects used by the witness theorems -/

def envW : Env :=
  { isRegistered := true,
    memberInfo := some { user_id := "U1", office := "テスト事業所", address := "テスト住所",
                         role := "相談員", name := "山田太郎" },
    registerOk := true,
    persistResult := some "山田花子_20260101" }

/-- A consultation session sitting in the confirm phase. -/
def sesConfirmW : Session :=
  { mode := Mode.consult, step := 26, answers := [("patient_name", "山田花子")],
    phase := Phase.confirmConsult, retry := 0 }

/-- C1: in either confirm phase, a negative or unrecognized input increments
the retry counter; when the incremented counter reaches MAX_CONFIRM_RETRIES
(3) the handler replies with the fixed escalation message and deletes the
session; and starting from retry 0, three consecutive unrecognized confirm
inputs escalate and delete exactly on the third, while after two the
session still exists. -/
theorem c1_confirm_retry_policy (env : Env) (ses : Session) (text : String)
    (h1 : pyStrip text ∉ cancelKeywords)
    (h2 : pyStrip text ∉ registerStartKeywords)
    (h3 : pyStrip text ∉ consultStartKeywords)
    (hphase : ses.phase = Phase.confirmRegister ∨ ses.phase = Phase.confirmConsult)
    (haff : pyLower (pyStrip text) ∉ affirmativeKeywords) :
    (ses.retry + 1 ≥ MAX_CONFIRM_RETRIES →
        handle_message env (some ses) text =
          { session := none, msgs := [escalationMsg], calls := [] })
    ∧ (ses.retry + 1 < MAX_CONFIRM_RETRIES →
        ∃ ses2, (handle_message env (some ses) text).session = some ses2
          ∧ ses2.retry = ses.retry + 1)
    ∧ (ses.retry = 0 → pyLower (pyStrip text) ∉ negativeKeywords →
        ∃ ses1 ses2,
          (handle_message env (some ses) text).session = some ses1 ∧ ses1.retry = 1
          ∧ (handle_message env (some ses1) text).session = some ses2 ∧ ses2.retry = 2
          ∧ handle_message env (some ses2) text =
              { session := none, msgs := [escalationMsg], calls := [] }) := by
  refine ⟨?_, ?_, ?_⟩
  · intro hb
    rcases hphase with hp | hp
    · rw [hm_confirmRegister_eq env ses text h1 h2 h3 hp]
      by_cases hneg : pyLower (pyStrip text) ∈ negativeKeywords
      · rw [confirmRegisterStep_neg env ses (pyStrip text) hneg, if_pos hb]
      · rw [confirmRegisterStep_unrec env ses (pyStrip text) haff hneg, if_pos hb]
    · rw [hm_confirmConsult_eq env ses text h1 h2 h3 hp]
      by_cases hneg : pyLower (pyStrip text) ∈ negativeKeywords
      · rw [confirmConsultStep_neg env ses (pyStrip text) hneg, if_pos hb]
      · rw [confirmConsultStep_unrec env ses (pyStrip text) haff hneg, if_pos hb]
  · intro hb
    have hb2 : ¬ (ses.retry + 1 ≥ MAX_CONFIRM_RETRIES) := by omega
    rcases hphase with hp | hp
    · rw [hm_confirmRegister_eq env ses text h1 h2 h3 hp]
      by_cases hneg : pyLower (pyStrip text) ∈ negativeKeywords
      · rw [confirmRegisterStep_neg env ses (pyStrip text) hneg, if_neg hb2]
        exact ⟨_, rfl, rfl⟩
      · rw [confirmRegisterStep_unrec env ses (pyStrip text) haff hneg, if_neg hb2]
        exact ⟨_, rfl, rfl⟩
    · rw [hm_confirmConsult_eq env ses text h1 h2 h3 hp]
      by_cases hneg : pyLower (pyStrip text) ∈ negativeKeywords
      · rw [confirmConsultStep_neg env ses (pyStrip text) hneg, if_neg hb2]
        exact ⟨_, rfl, rfl⟩
      · rw [confirmConsultStep_unrec env ses (pyStrip text) haff hneg, if_neg hb2]
        exact ⟨_, rfl, rfl⟩
  · intro hr hneg
    have key : ∀ s : Session, s.phase = ses.phase →
        handle_message env (some s) text =
          if s.retry + 1 ≥ MAX_CONFIRM_RETRIES then
            { session := none, msgs := [escalationMsg], calls := [] }
          else
            { session := some { s with retry := s.retry + 1 },
              msgs := ["『はい』または『いいえ』でお答えください。"], calls := [] } := by
      intro s hp
      exact hm_confirm_unrec env s text h1 h2 h3 (by rw [hp]; exact hphase) haff hneg
    have e1 := key ses rfl
    rw [if_neg (by simp only [MAX_CONFIRM_RETRIES]; omega)] at e1
    have e2 := key { ses with retry := ses.retry + 1 } rfl
    rw [if_neg (by simp only [MAX_CONFIRM_RETRIES]; omega)] at e2
    have e3 := key { ses with retry := ses.retry + 1 + 1 } rfl
    rw [if_pos (by simp only [MAX_CONFIRM_RETRIES]; omega)] at e3
    refine ⟨{ ses with retry := ses.retry + 1 }, { ses with retry := ses.retry + 1 + 1 },
      by rw [e1], by simp [hr], ?_, by simp [hr], by simpa using e3⟩
    have : ({ ses with retry := ses.retry + 1 } : Session).retry + 1 = ses.retry + 1 + 1 := rfl
    rw [e2]

/-- Witness for C1: a consultation confirm session with retry 0 and the
unrecognized input survives two rounds and is escalated and deleted on the
third. -/
theorem c1_confirm_retry_policy_witness :
    ∃ ses1 ses2,
      (handle_message envW (some sesConfirmW) "わからない").session = some ses1 ∧ ses1.retry = 1
      ∧ (handle_message envW (some ses1) "わからない").session = some ses2 ∧ ses2.retry = 2
      ∧ handle_message envW (some ses2) "わからない" =
          { session := none, msgs := [escalationMsg], calls := [] } :=
  (c1_confirm_retry_policy envW sesConfirmW "わからない" (by decide) (by decide) (by decide)
    (Or.inr rfl) (by decide)).2.2 rfl (by decide)

/-- A consultation session sitting in the edit phase, with the label-map
example answer of the spec. -/
def sesEditA : Session :=
  { mode := Mode.consult, step := 26, answers := [("patient_name", "A")],
    phase := Phase.editConsult, retry := 1 }

/-- C2 counterexample: with `patient_name="A"` in the edit phase, the input
`"氏名  B"` (two spaces) has remainder `" B"` after its first space, but the
stored answer is the stripped `"B"`, not the remainder `" B"` — so the
answer is not, as claimed, overwritten with the remainder of the input. -/
theorem c2_counterexample :
    splitFirstSpace ("氏名  B").data = some (("氏名").data, (" B").data)
    ∧ (∃ s2, (handle_message envW (some sesEditA) "氏名  B").session = some s2
        ∧ dictGet s2.answers "patient_name" = some "B")
    ∧ (" B" : String) ≠ "B" :=
  ⟨by decide, ⟨_, rfl, by decide⟩, by decide⟩

/-- C2 (amended): a successful edit stores the whitespace-stripped
remainder: in the edit phase, an input splitting at its first space into a
label/identifier that resolves to a field present in the answers overwrites
that field with the stripped remainder, returns the phase to
ConfirmConsult, resets the retry counter to 0, and emits the edit
confirmation plus the preview regenerated from the updated answers. -/
theorem c2_edit_overwrite (env : Env) (ses : Session) (text : String) (k v : List Char)
    (h1 : pyStrip text ∉ cancelKeywords)
    (h2 : pyStrip text ∉ registerStartKeywords)
    (h3 : pyStrip text ∉ consultStartKeywords)
    (hphase : ses.phase = Phase.editConsult)
    (hsplit : splitFirstSpace (pyStrip text).data = some (k, v))
    (hmem : dictMem ses.answers ((dictGet invLabelMap (String.mk k)).getD (String.mk k)) = true) :
    (let key := String.mk k
     let value := pyStrip (String.mk v)
     let mappedKey := (dictGet invLabelMap key).getD key
     let answers2 := dictSet ses.answers mappedKey value
     handle_message env (some ses) text =
       { session := some { ses with answers := answers2,
                                    phase := Phase.confirmConsult, retry := 0 },
         msgs := ["『" ++ key ++ "』を『" ++ value ++ "』に修正しました。",
                  format_consult_preview answers2],
         calls := [] }
     ∧ dictGet answers2 mappedKey = some value) := by
  refine ⟨?_, dictGet_dictSet_self _ _ _⟩
  rw [hm_editConsult_eq env ses text h1 h2 h3 hphase]
  unfold editConsultStep
  rw [hsplit]
  simp [hmem]

/-- Witness for C2: the spec example — `patient_name="A"`, input `"氏名 B"`
yields `answers["patient_name"]=="B"`, phase ConfirmConsult, retry 0, and a
regenerated preview showing `B`. -/
theorem c2_edit_overwrite_witness :
    (handle_message envW (some sesEditA) "氏名 B" =
      { session := some { mode := Mode.consult, step := 26,
                          answers := [("patient_name", "B")],
                          phase := Phase.confirmConsult, retry := 0 },
        msgs := ["『氏名』を『B』に修正しました。",
                 "🧑‍⚕️【患者さま情報の確認】\n・氏名：B\n\nこの内容でよろしいですか？（はい / いいえ）"],
        calls := [] })
    ∧ dictGet [("patient_name", "B")] "patient_name" = some "B" := by
  have h := c2_edit_overwrite envW sesEditA "氏名 B" ("氏名").data ("B").data
    (by decide) (by decide) (by decide) rfl (by decide) (by decide)
  exact ⟨h.1.trans (by decide), by decide⟩

/-- A fully answered registration session sitting in the confirm phase. -/
def sesConfirmRegW : Session :=
  { mode := Mode.register, step := 4,
    answers := [("name", "X"), ("office", "O"), ("address", "A"), ("role", "R"), ("phone", "P")],
    phase := Phase.confirmRegister, retry := 0 }

/-- C3 counterexample: a negative answer in ConfirmRegister below the retry
bound resets mode/step/phase but preserves the answers mapping (it is not
emptied) and keeps the incremented retry counter (it is not reset to 0) —
contradicting the claim that the reset preserves nothing. -/
theorem c3_counterexample :
    ∃ s2, (handle_message envW (some sesConfirmRegW) "いいえ").session = some s2
      ∧ s2.answers = sesConfirmRegW.answers
      ∧ s2.answers ≠ []
      ∧ s2.retry = 1
      ∧ s2.retry ≠ 0 :=
  ⟨_, rfl, by decide, by decide, by decide, by decide⟩

/-- C3 (amended): a negative answer in ConfirmRegister whose incremented
retry counter is still below the bound resets the session to
(Registering, Input, step=0) while *preserving* the answers mapping and
keeping the incremented retry counter (answers and retry are reset only
when the restarted questionnaire pass completes), and emits the restarting
notice followed by the first registration prompt. -/
theorem c3_confirm_register_negative (env : Env) (ses : Session) (text : String)
    (h1 : pyStrip text ∉ cancelKeywords)
    (h2 : pyStrip text ∉ registerStartKeywords)
    (h3 : pyStrip text ∉ consultStartKeywords)
    (hphase : ses.phase = Phase.confirmRegister)
    (hneg : pyLower (pyStrip text) ∈ negativeKeywords)
    (hb : ses.retry + 1 < MAX_CONFIRM_RETRIES) :
    handle_message env (some ses) text =
      { session := some { ses with mode := Mode.register, step := 0, phase := Phase.none, retry := ses.retry + 1 },
        msgs := ["登録情報を修正します。はじめから伺います。",
                 (REGISTER_QUESTIONS.getD 0 defaultQ).question],
        calls := [] } := by
  rw [hm_confirmRegister_eq env ses text h1 h2 h3 hphase,
      confirmRegisterStep_neg env ses (pyStrip text) hneg, if_neg (by omega)]

/-- Witness for C3 (amended): the concrete negative answer on a full
registration confirm session keeps all five answers and moves retry to 1. -/
theorem c3_confirm_register_negative_witness :
    handle_message envW (some sesConfirmRegW) "いいえ" =
      { session := some { mode := Mode.register, step := 0,
                          answers := [("name", "X"), ("office", "O"), ("address", "A"), ("role", "R"), ("phone", "P")],
                          phase := Phase.none, retry := 1 },
        msgs := ["登録情報を修正します。はじめから伺います。", "氏名を教えてください。"],
        calls := [] } :=
  (c3_confirm_register_negative envW sesConfirmRegW "いいえ"
    (by decide) (by decide) (by decide) rfl (by decide) (by decide)).trans (by decide)

/-- An environment in which both side-effecting collaborators fail. -/
def envFailW : Env :=
  { envW with registerOk := false, persistResult := Option.none }

/-- C7: when the member-registration write raises (on an affirmative
ConfirmRegister with collected answers) or the structured-record
persistence raises (on an affirmative ConfirmConsult), the handler emits
the same fixed escalation message, deletes the session, and makes the
failed call exactly once — it is never retried. -/
theorem c7_collaborator_failure (env : Env) (ses : Session) (text : String)
    (h1 : pyStrip text ∉ cancelKeywords)
    (h2 : pyStrip text ∉ registerStartKeywords)
    (h3 : pyStrip text ∉ consultStartKeywords)
    (haff : pyLower (pyStrip text) ∈ affirmativeKeywords) :
    (ses.phase = Phase.confirmRegister → ses.mode = Mode.register → ses.answers ≠ [] →
      env.registerOk = false →
      handle_message env (some ses) text =
        { session := none, msgs := [escalationMsg],
          calls := [Call.registerUser (dictGetD ses.answers "office" "")
            (dictGetD ses.answers "address" "") (dictGetD ses.answers "role" "")
            (dictGetD ses.answers "name" "")] })
    ∧ (ses.phase = Phase.confirmConsult → env.persistResult = Option.none →
      handle_message env (some ses) text =
        { session := none, msgs := [escalationMsg],
          calls := [Call.writeStructuredData (build_structured_json ses.answers)] }) := by
  constructor
  · intro hphase hmode hans hreg
    rw [hm_confirmRegister_eq env ses text h1 h2 h3 hphase]
    simp [confirmRegisterStep, haff, hmode, hans, hreg]
  · intro hphase hpersist
    rw [hm_confirmConsult_eq env ses text h1 h2 h3 hphase]
    simp [confirmConsultStep, haff, hpersist]

/-- Witness for C7: with both collaborators failing, the affirmative answer
in each confirm phase yields escalation, deletion and a single call. -/
theorem c7_collaborator_failure_witness :
    handle_message envFailW (some sesConfirmRegW) "はい" =
      { session := none, msgs := [escalationMsg],
        calls := [Call.registerUser "O" "A" "R" "X"] }
    ∧ handle_message envFailW (some sesConfirmW) "はい" =
      { session := none, msgs := [escalationMsg],
        calls := [Call.writeStructuredData (build_structured_json [("patient_name", "山田花子")])] } := by
  constructor
  · exact ((c7_collaborator_failure envFailW sesConfirmRegW "はい"
      (by decide) (by decide) (by decide) (by decide)).1 rfl rfl (by decide) rfl).trans (by decide)
  · exact ((c7_collaborator_failure envFailW sesConfirmW "はい"
      (by decide) (by decide) (by decide) (by decide)).2 rfl rfl).trans (by decide)

/-- Keyword sets: a consultation-start keyword is neither a cancel nor a
registration-start keyword. -/
theorem consult_start_disjoint (s : String) (h : s ∈ consultStartKeywords) :
    s ∉ cancelKeywords ∧ s ∉ registerStartKeywords := by
  simp [consultStartKeywords] at h
  rcases h with h | h | h <;> subst h <;> exact ⟨by decide, by decide⟩

/-- C8: a consult-start keyword from a registered user resets the session
to (Registering, ConfirmRegister, step=0, answers={}, retry=0) and replies
with the formatted member record plus the yes/no prompt, skipping the
registration questions; a subsequent affirmative answer makes no
register-write call (answers are empty) and moves the session to
(Consulting, Input, step=0, answers={}, retry=0) with the first
consultation prompt. -/
theorem c8_registered_consult_start (env : Env) (ses : Session) (text1 text2 : String)
    (hreg : env.isRegistered = true)
    (hstart : pyStrip text1 ∈ consultStartKeywords)
    (h1 : pyStrip text2 ∉ cancelKeywords)
    (h2 : pyStrip text2 ∉ registerStartKeywords)
    (h3 : pyStrip text2 ∉ consultStartKeywords)
    (haff : pyLower (pyStrip text2) ∈ affirmativeKeywords) :
    handle_message env (some ses) text1 =
      { session := some { mode := Mode.register, step := 0, answers := [],
                          phase := Phase.confirmRegister, retry := 0 },
        msgs := [format_member_info env.memberInfo ++
                 "\n\nこの登録情報でよろしいですか？（はい / いいえ）"],
        calls := [] }
    ∧ handle_message env
        (some { mode := Mode.register, step := 0, answers := [],
                phase := Phase.confirmRegister, retry := 0 }) text2 =
      { session := some { mode := Mode.consult, step := 0, answers := [],
                          phase := Phase.none, retry := 0 },
        msgs := [(CONSULT_QUESTIONS.getD 0 defaultQ).question],
        calls := [] } := by
  obtain ⟨hnc, hnr⟩ := consult_start_disjoint (pyStrip text1) hstart
  constructor
  · simp [handle_message, hnc, hnr, hstart, consultStartStep, hreg]
  · rw [hm_confirmRegister_eq env _ text2 h1 h2 h3 rfl]
    simp [confirmRegisterStep, haff]

/-- Witness for C8: the registered user of `envW` sends a consult-start
keyword and then an affirmative answer. -/
theorem c8_registered_consult_start_witness :
    handle_message envW (some defaultSession) "依頼したい" =
      { session := some { mode := Mode.register, step := 0, answers := [],
                          phase := Phase.confirmRegister, retry := 0 },
        msgs := ["📋【登録者情報】\n氏名：山田太郎\n事業所名：テスト事業所\n住所：テスト住所\n役職：相談員\nユーザーID：U1\n\nこの登録情報でよろしいですか？（はい / いいえ）"],
        calls := [] }
    ∧ handle_message envW
        (some { mode := Mode.register, step := 0, answers := [],
                phase := Phase.confirmRegister, retry := 0 }) "はい" =
      { session := some { mode := Mode.consult, step := 0, answers := [],
                          phase := Phase.none, retry := 0 },
        msgs := ["質問（ふりがな）を教えてください。"],
        calls := [] } := by
  have h := c8_registered_consult_start envW defaultSession "依頼したい" "はい"
    rfl (by decide) (by decide) (by decide) (by decide) (by decide)
  exact ⟨h.1.trans (by decide), h.2.trans (by decide)⟩

/-- The no-separator branch of the edit phase. -/
theorem editConsultStep_nospace (ses : Session) (t : String)
    (h : splitFirstSpace t.data = Option.none) :
    editConsultStep ses t =
      { session := some ses,
        msgs := ["『項目名 半角スペース 値』の形式で入力してください。"], calls := [] } := by
  unfold editConsultStep
  rw [h]

/-- The field-not-found branch of the edit phase. -/
theorem editConsultStep_notfound (ses : Session) (t : String) (k v : List Char)
    (h : splitFirstSpace t.data = some (k, v))
    (hm : dictMem ses.answers ((dictGet invLabelMap (String.mk k)).getD (String.mk k)) = false) :
    editConsultStep ses t =
      { session := some ses,
        msgs := ["『" ++ String.mk k ++ "』という項目が見つかりませんでした。もう一度お試しください。"],
        calls := [] } := by
  unfold editConsultStep
  rw [h]
  simp [hm]

/-- The successful-edit branch of the edit phase. -/
theorem editConsultStep_found (ses : Session) (t : String) (k v : List Char)
    (h : splitFirstSpace t.data = some (k, v))
    (hm : dictMem ses.answers ((dictGet invLabelMap (String.mk k)).getD (String.mk k)) = true) :
    editConsultStep ses t =
      (let key := String.mk k
       let value := pyStrip (String.mk v)
       let answers2 := dictSet ses.answers ((dictGet invLabelMap key).getD key) value
       { session := some { ses with answers := answers2,
                                    phase := Phase.confirmConsult, retry := 0 },
         msgs := ["『" ++ key ++ "』を『" ++ value ++ "』に修正しました。",
                  format_consult_preview answers2],
         calls := [] }) := by
  unfold editConsultStep
  rw [h]
  simp [hm]

/-- C10 (implicit): every transition handled by the EditConsult branch
keeps the session alive with an unchanged answer-key set — a successful
edit only overwrites an existing field — and the missing-separator and
field-not-found branches leave the whole session (answers and retry
included) unchanged, so no edit ever adds a new field. -/
theorem c10_edit_preserves_answer_keys (env : Env) (ses : Session) (text : String)
    (h1 : pyStrip text ∉ cancelKeywords)
    (h2 : pyStrip text ∉ registerStartKeywords)
    (h3 : pyStrip text ∉ consultStartKeywords)
    (hphase : ses.phase = Phase.editConsult) :
    ∃ s2, (handle_message env (some ses) text).session = some s2
      ∧ dictKeys s2.answers = dictKeys ses.answers
      ∧ (splitFirstSpace (pyStrip text).data = Option.none → s2 = ses)
      ∧ (∀ k v, splitFirstSpace (pyStrip text).data = some (k, v) →
          dictMem ses.answers ((dictGet invLabelMap (String.mk k)).getD (String.mk k)) = false →
          s2 = ses) := by
  rw [hm_editConsult_eq env ses text h1 h2 h3 hphase]
  cases hsp : splitFirstSpace (pyStrip text).data with
  | none =>
      rw [editConsultStep_nospace ses (pyStrip text) hsp]
      exact ⟨ses, rfl, rfl, fun _ => rfl, fun k v hkv _ => Option.noConfusion hkv⟩
  | some kv =>
      obtain ⟨k, v⟩ := kv
      cases hm : dictMem ses.answers ((dictGet invLabelMap (String.mk k)).getD (String.mk k)) with
      | false =>
          rw [editConsultStep_notfound ses (pyStrip text) k v hsp hm]
          exact ⟨ses, rfl, rfl, fun h => Option.noConfusion h, fun _ _ _ _ => rfl⟩
      | true =>
          rw [editConsultStep_found ses (pyStrip text) k v hsp hm]
          refine ⟨_, rfl, dictKeys_dictSet_of_mem _ _ _ hm, fun h => Option.noConfusion h, ?_⟩
          intro k2 v2 heq hmem2
          cases heq
          simp [hm] at hmem2

/-- Witness for C10: a space-less input in the edit phase leaves the
session untouched with the same answer keys. -/
theorem c10_edit_preserves_answer_keys_witness :
    ∃ s2, (handle_message envW (some sesEditA) "こんにちは").session = some s2
      ∧ dictKeys s2.answers = dictKeys sesEditA.answers := by
  obtain ⟨s2, hses, hkeys, -, -⟩ :=
    c10_edit_preserves_answer_keys envW sesEditA "こんにちは"
      (by decide) (by decide) (by decide) rfl
  exact ⟨s2, hses, hkeys⟩

/-- The per-entry traversal of `_load_questions` errors as soon as some
entry has no "question" key. -/
theorem normalizeEntries_error (entries : List RawEntry)
    (h : ∃ q ∈ entries, q.question? = Option.none) :
    normalizeEntries entries = Except.error LoadError.missingQuestion := by
  induction entries with
  | nil => simp at h
  | cons e rest ih =>
      rcases h with ⟨q, hq, hnone⟩
      rcases List.mem_cons.mp hq with he | hrest
      · subst he
        unfold normalizeEntries
        rw [hnone]
      · cases hqe : e.question? with
        | none =>
            unfold normalizeEntries
            rw [hqe]
        | some qt =>
            unfold normalizeEntries
            rw [hqe, ih ⟨q, hrest, hnone⟩]

/-- When every entry has a "question" key, `_load_questions` succeeds and
normalizes each entry, taking the "field" key when truthy, else "key". -/
theorem normalizeEntries_ok (entries : List RawEntry)
    (h : ∀ q ∈ entries, q.question? ≠ Option.none) :
    normalizeEntries entries =
      Except.ok (entries.map (fun q =>
        { field := pyOr q.field? q.key?, question := q.question?.getD "" })) := by
  induction entries with
  | nil => rfl
  | cons e rest ih =>
      cases hqe : e.question? with
      | none => exact absurd hqe (h e (List.mem_cons_self e rest))
      | some qt =>
          unfold normalizeEntries
          rw [hqe, ih (fun q hq => h q (List.mem_cons_of_mem e hq))]
          simp [hqe]

/-- C4 counterexample: an entry carrying a prompt but neither of the two
legacy field keys loads *successfully*, yielding a question entry whose
field identifier is absent — the loader neither fails on it nor guarantees
a field identifier. -/
theorem c4_counterexample :
    load_questions (some [{ field? := Option.none, key? := Option.none, question? := some "質問" }])
      = Except.ok [{ field := Option.none, question := "質問" }] := rfl

/-- C4 (amended): question loading fails when the source is missing or
malformed and when any entry lacks prompt text; either legacy key "field"
or "key" is accepted, normalized into the single field slot with "field"
taking priority when truthy; but an entry lacking both keys does not fail —
it is loaded with an absent field identifier. -/
theorem c4_load_questions_behaviour :
    (load_questions Option.none = Except.error LoadError.badSource)
    ∧ (∀ entries : List RawEntry, (∃ q ∈ entries, q.question? = Option.none) →
        load_questions (some entries) = Except.error LoadError.missingQuestion)
    ∧ (∀ entries : List RawEntry, (∀ q ∈ entries, q.question? ≠ Option.none) →
        load_questions (some entries) =
          Except.ok (entries.map (fun q =>
            { field := pyOr q.field? q.key?, question := q.question?.getD "" }))) :=
  ⟨rfl, fun entries h => normalizeEntries_error entries h,
    fun entries h => normalizeEntries_ok entries h⟩

/-- Witness for C4: missing source fails, a prompt-less entry fails, and an
entry with an empty "field" and a "key" normalizes to the "key" value. -/
theorem c4_load_questions_behaviour_witness :
    load_questions Option.none = Except.error LoadError.badSource
    ∧ load_questions (some [{ field? := some "f1", key? := Option.none, question? := Option.none }])
        = Except.error LoadError.missingQuestion
    ∧ load_questions (some [{ field? := some "", key? := some "k1", question? := some "Q1" }])
        = Except.ok [{ field := some "k1", question := "Q1" }] := by
  obtain ⟨ha, hb, hc⟩ := c4_load_questions_behaviour
  refine ⟨ha,
    hb _ ⟨{ field? := some "f1", key? := Option.none, question? := Option.none },
          List.mem_cons_self _ _, rfl⟩,
    (hc _ (by simp)).trans rfl⟩

/-- The patient section schema of `build_structured_json`:
display label paired with the answers field it is fetched from. -/
def patientSchema : List (String × String) :=
  [("ふりがな", "furigana"), ("氏名", "patient_name"), ("性別", "gender"),
   ("生年月日", "dob"), ("年齢", "age"), ("住所（施設名含む）", "address"),
   ("郵便番号", "postal_code"), ("電話（自宅）", "home_phone"),
   ("電話（携帯）", "mobile_phone"), ("緊急連絡先電話番号", "emergency_contact"),
   ("駐車場", "parking"), ("居住形態", "residence_type"), ("要介護度", "care_level")]

/-- The medical section schema of `build_structured_json`. -/
def medicalSchema : List (String × String) :=
  [("既往歴", "medical_history"), ("現病歴", "current_condition"),
   ("感染症", "infection_status"), ("内科主治医_病院名", "internal_medicine_hospital"),
   ("内科主治医_医師名", "internal_medicine_doctor"), ("意思疎通", "communication_ability"),
   ("嚥下機能", "swallowing_function"), ("服薬状況", "medication_status"),
   ("発症日・発症年", "onset_date")]

/-- The coordination section schema of `build_structured_json`. -/
def coordinationSchema : List (String × String) :=
  [("希望訪問曜日・時間帯", "preferred_visit_time"), ("同席者", "accompanying_person"),
   ("キーパーソン_氏名", "key_person_name"), ("キーパーソン_続柄", "key_person_relationship"),
   ("キーパーソン_住所", "key_person_address")]

/-- C5: for every answers mapping, the structured-record builder returns
exactly the three fixed named sections, each mapping its fixed display
labels to the value fetched from answers with empty-string fallback; the
sections' designated fields are together exactly the 27-field consultation
set; and it is a pure function of answers with no other validation. -/
theorem c5_build_structured_sections (answers : List (String × String)) :
    build_structured_json answers =
      [("患者情報", patientSchema.map (fun lf => (lf.1, dictGetD answers lf.2 ""))),
       ("医療情報", medicalSchema.map (fun lf => (lf.1, dictGetD answers lf.2 ""))),
       ("連絡・調整", coordinationSchema.map (fun lf => (lf.1, dictGetD answers lf.2 "")))]
    ∧ patientSchema.map Prod.snd ++ medicalSchema.map Prod.snd ++ coordinationSchema.map Prod.snd
        = dictKeys LABEL_MAP
    ∧ (dictKeys LABEL_MAP).length = 27 :=
  ⟨rfl, by decide, by decide⟩

/-- C6: the consultation preview is the header line, followed by one line
per catalog question — in catalog order — whose answer is present and
non-empty (labelled from the label map, falling back to the raw field
identifier), followed by the yes/no confirmation prompt; the catalog has
the 27 consultation fields.  It is a pure function of the answers. -/
theorem c6_consult_preview_lines (answers : List (String × String)) :
    format_consult_preview answers =
      String.intercalate "\n"
        ("🧑‍⚕️【患者さま情報の確認】"
          :: (CONSULT_QUESTIONS.filterMap (fun q =>
                if dictGetD answers q.field "" = "" then none
                else some ("・" ++ dictGetD LABEL_MAP q.field q.field ++ "：" ++
                           dictGetD answers q.field ""))
            ++ ["\nこの内容でよろしいですか？（はい / いいえ）"]))
    ∧ CONSULT_QUESTIONS.length = 27 := by
  refine ⟨?_, by decide⟩
  unfold format_consult_preview consultPreviewLines
  rw [foldl_preview_eq]
  rfl

/-- The step-bound invariant on one session: the step index is a valid
index into the active question sequence (`0 <= step` holds by the Nat
type).  Sessions with no active mode impose no bound. -/
def SessInvS (ses : Session) : Prop :=
  (ses.mode = Mode.register → ses.step < REGISTER_QUESTIONS.length)
  ∧ (ses.mode = Mode.consult → ses.step < CONSULT_QUESTIONS.length)

instance (ses : Session) : Decidable (SessInvS ses) :=
  inferInstanceAs (Decidable (_ ∧ _))

/-- The step-bound invariant on a stored session (`none` = no session). -/
def SessInv (s : Option Session) : Prop :=
  ∀ ses, s = some ses → SessInvS ses

theorem sessInv_none : SessInv none :=
  fun _ h => Option.noConfusion h

theorem sessInv_some {x : Session} (h : SessInvS x) : SessInv (some x) := by
  intro s2 h2
  cases h2
  exact h

theorem inv_consultStartStep (env : Env) : SessInv (consultStartStep env).session := by
  unfold consultStartStep
  split_ifs <;> exact sessInv_some (by decide)

theorem inv_registerInputStep (ses : Session) (text : String)
    (hmode : ses.mode = Mode.register)
    (hstep : ses.step < REGISTER_QUESTIONS.length) :
    SessInv (registerInputStep ses text).session := by
  unfold registerInputStep
  dsimp only
  split_ifs with hlt
  · exact sessInv_some ⟨fun _ => hlt,
      fun hcon => by rw [hmode] at hcon; exact absurd hcon (by decide)⟩
  · exact sessInv_some ⟨fun _ => hstep,
      fun hcon => by rw [hmode] at hcon; exact absurd hcon (by decide)⟩

theorem inv_consultInputStep (ses : Session) (text : String)
    (hmode : ses.mode = Mode.consult)
    (hstep : ses.step < CONSULT_QUESTIONS.length) :
    SessInv (consultInputStep ses text).session := by
  unfold consultInputStep
  dsimp only
  split_ifs with hlt
  · exact sessInv_some ⟨fun hcon => by rw [hmode] at hcon; exact absurd hcon (by decide),
      fun _ => hlt⟩
  · exact sessInv_some ⟨fun hcon => by rw [hmode] at hcon; exact absurd hcon (by decide),
      fun _ => hstep⟩

theorem inv_confirmRegisterStep (env : Env) (ses : Session) (t : String)
    (h : SessInvS ses) : SessInv (confirmRegisterStep env ses t).session := by
  unfold confirmRegisterStep
  dsimp only
  split_ifs
  · exact sessInv_some (by decide)
  · exact sessInv_none
  · exact sessInv_some (by decide)
  · exact sessInv_none
  · exact sessInv_some ⟨fun _ => (by decide : (0 : Nat) < REGISTER_QUESTIONS.length),
      fun hcon => absurd (show Mode.register = Mode.consult from hcon) (by decide)⟩
  · exact sessInv_none
  · exact sessInv_some h

theorem inv_confirmConsultStep (env : Env) (ses : Session) (t : String)
    (h : SessInvS ses) : SessInv (confirmConsultStep env ses t).session := by
  unfold confirmConsultStep
  dsimp only
  split_ifs
  · cases hp : env.persistResult <;> exact sessInv_none
  · exact sessInv_none
  · exact sessInv_some h
  · exact sessInv_none
  · exact sessInv_some h

theorem inv_editConsultStep (ses : Session) (t : String)
    (h : SessInvS ses) : SessInv (editConsultStep ses t).session := by
  unfold editConsultStep
  cases splitFirstSpace t.data with
  | none => exact sessInv_some h
  | some kv =>
      obtain ⟨k, v⟩ := kv
      dsimp only
      split_ifs
      · exact sessInv_some h
      · exact sessInv_some h

/-- One handled message preserves the step-bound invariant. -/
theorem sessInv_step (env : Env) (stored : Option Session) (text : String)
    (h : SessInv stored) : SessInv (handle_message env stored text).session := by
  have hS : SessInvS (stored.getD defaultSession) := by
    cases stored with
    | none => decide
    | some s => exact h s rfl
  unfold handle_message
  dsimp only
  split_ifs with hc hr hcs hri hcr hci hcc hce
  · exact sessInv_none
  · exact sessInv_some (by decide)
  · exact inv_consultStartStep env
  · exact inv_registerInputStep _ _ hri.1 (hS.1 hri.1)
  · exact inv_confirmRegisterStep env _ _ hS
  · exact inv_consultInputStep _ _ hci.1 (hS.2 hci.1)
  · exact inv_confirmConsultStep env _ _ hS
  · exact inv_editConsultStep _ _ hS
  · exact sessInv_some hS

/-- The stored sessions reachable through the message handler, starting
from a user with no session. -/
inductive Reachable : Option Session → Prop
  | init : Reachable none
  | step (env : Env) (s : Option Session) (text : String) :
      Reachable s → Reachable (handle_message env s text).session

/-- C9: every reachable stored session satisfies `0 <= step < length` of
the active question sequence (registration when Registering, consultation
when Consulting) — so the Input-phase handlers always index in bounds —
and every single transition preserves this invariant. -/
theorem c9_step_in_bounds :
    (∀ s, Reachable s → SessInv s)
    ∧ (∀ (env : Env) (stored : Option Session) (text : String),
        SessInv stored → SessInv (handle_message env stored text).session) := by
  constructor
  · intro s h
    induction h with
    | init => exact sessInv_none
    | step env s text _ ih => exact sessInv_step env s text ih
  · exact sessInv_step

/-- Witness for C9: the session stored after a fresh user starts the
registration flow is reachable and in bounds. -/
theorem c9_step_in_bounds_witness :
    SessInv ((handle_message envW none "登録する").session) :=
  c9_step_in_bounds.1 _ (Reachable.step envW none "登録する" Reachable.init)

end Linebot
